import Mathlib

/-!
Shallow embedding of `zk_shell/cli.py`: the execution-mode dispatcher and
signal-driven REPL supervisor of zk-shell's command-line front end.

The embedding translates, from the source:
  * `CLIParams` (the named tuple of run parameters);
  * the mode selection performed at the top of `CLI.__call__`
    (`interactive = params.run_once == "" and not params.run_from_stdin`,
    then the `if params.run_once != ""` split on the non-interactive path);
  * the non-interactive dispatch (one-shot `onecmd` call, batch loop over
    `sys.stdin.readlines()` with `cmd.rstrip()`, the surrounding
    `try/except IOError`, and the final `sys.exit(rc)`);
  * the SIGUSR2 handler registration guard;
  * the supervisor `while True` loop with its `first` banner flag,
    `except StateTransition` / `except KeyboardInterrupt` clauses and the
    `raw_input`-based exit confirmation;
  * `set_unbuffered_mode` with its `Unbuffered` stream wrapper.

Collaborator behaviour (the `Shell` object, standard input, the user's
answers at the confirmation prompt, the timing of SIGUSR2 deliveries) is
supplied through oracles, so theorems quantify over every behaviour of the
environment.
-/

namespace ZkShell

/-- The three execution modes distinguished by `CLI.__call__`. -/
inductive ExecMode
  | oneShot
  | batch
  | interactive
  deriving DecidableEq, Repr

/-- The `CLIParams` named tuple of `cli.py`:
`"connect_timeout run_once run_from_stdin sync_connect hosts readonly"`. -/
structure CLIParams where
  connect_timeout : Int
  run_once : String
  run_from_stdin : Bool
  sync_connect : Bool
  hosts : List String
  readonly : Bool
  deriving DecidableEq, Repr

/-- Source line `interactive = params.run_once == "" and not params.run_from_stdin`. -/
def CLIParams.interactive (p : CLIParams) : Bool :=
  p.run_once == "" && !p.run_from_stdin

/-- Source line `async = False if params.sync_connect or not interactive else True`
(the identifier is renamed from `async`, which Lean reserves in some contexts). -/
def CLIParams.asyncFlag (p : CLIParams) : Bool :=
  if p.sync_connect || !p.interactive then false else true

/-- The execution mode actually taken by `CLI.__call__`: the interactive
path when `interactive` holds, otherwise the `if params.run_once != ""`
split inside the `if not interactive` block chooses one-shot or batch. -/
def CLIParams.mode (p : CLIParams) : ExecMode :=
  if p.interactive then ExecMode.interactive
  else if p.run_once ≠ "" then ExecMode.oneShot
  else ExecMode.batch

/-- Mode selection as the specification words it: one-shot if `runOnceCommand`
non-empty; else batch if `runFromStdin`; else interactive.  Stated from the
spec, to be compared with `CLIParams.mode` (which follows the source). -/
def specMode (p : CLIParams) : ExecMode :=
  if p.run_once ≠ "" then ExecMode.oneShot
  else if p.run_from_stdin then ExecMode.batch
  else ExecMode.interactive

theorem interactive_iff (p : CLIParams) :
    p.interactive = true ↔ p.run_once = "" ∧ p.run_from_stdin = false := by
  simp [CLIParams.interactive, Bool.and_eq_true]

theorem mode_interactive_iff (p : CLIParams) :
    p.mode = ExecMode.interactive ↔ p.interactive = true := by
  unfold CLIParams.mode
  by_cases h : p.interactive = true
  · simp [h]
  · simp [h]
    by_cases h2 : p.run_once = ""
    · simp [h2]
    · simp [h2]

/-- Python's whitespace set (ASCII part, as in `string.whitespace`): the
characters removed by `str.rstrip()` when called without arguments. -/
def isPySpace (c : Char) : Bool :=
  c = ' ' || c = '\t' || c = '\n' || c = Char.ofNat 11 || c = Char.ofNat 12 || c = '\r'

/-- Python's `s.rstrip()` (no argument): remove every trailing whitespace
character.  Used by the batch loop as `cmd.rstrip()`. -/
def pyRstrip (s : String) : String :=
  String.mk ((s.data.reverse.dropWhile isPySpace).reverse)

/-- Removal of only trailing line terminators (LF and CR), as the
specification words it ("stripping trailing line terminators").  Stated from
the spec, to be compared with `pyRstrip` (which follows the source). -/
def stripLineTerminators (s : String) : String :=
  String.mk ((s.data.reverse.dropWhile (fun c => c = '\n' || c = '\r')).reverse)

/-- Possible behaviours of a single `shell.onecmd(...)` call, as observed by
`CLI.__call__`: return the `None` sentinel, return anything else, or raise
`IOError`. -/
inductive CmdResult
  | retNone
  | retOther
  | raisesErr
  deriving DecidableEq, Repr

/-- An oracle giving the behaviour of the `n`-th `shell.onecmd` call made by
`CLI.__call__` on a given command string. -/
def ShellOracle : Type := Nat → String → CmdResult

/-- Behaviour of `sys.stdin.readlines()`: either the full list of input
lines (each still carrying its terminator, as `readlines` returns them), or
an `IOError` raised while reading. -/
inductive ReadResult
  | ok (lines : List String)
  | err
  deriving DecidableEq, Repr

/-- Exit code of the one-shot branch:
`rc = 0 if shell.onecmd(params.run_once) == None else 1`, inside
`try ... except IOError: rc = 1`. -/
def oneShotRc (o : ShellOracle) (cmd : String) : Nat :=
  match o 0 cmd with
  | CmdResult.retNone => 0
  | CmdResult.retOther => 1
  | CmdResult.raisesErr => 1

/-- The batch `for cmd in sys.stdin.readlines(): shell.onecmd(cmd.rstrip())`
loop, inside `try ... except IOError: rc = 1`.  Returns the exit code and
the list of command strings passed to `shell.onecmd` (the call that raises
`IOError` is included; the commands after it are aborted).  The `Nat`
argument counts the `onecmd` calls already made, indexing the oracle. -/
def batchLoop (o : ShellOracle) : Nat → List String → Nat × List String
  | _, [] => (0, [])
  | i, line :: rest =>
    match o i (pyRstrip line) with
    | CmdResult.raisesErr => (1, [pyRstrip line])
    | _ => ((batchLoop o (i + 1) rest).1, pyRstrip line :: (batchLoop o (i + 1) rest).2)

/-- The whole `if not interactive:` block of `CLI.__call__`: one-shot when
`params.run_once != ""`, otherwise the batch loop over
`sys.stdin.readlines()` (reading may itself raise `IOError`, caught by the
same `except`, leaving no command executed).  Returns the `sys.exit` code
and the commands passed to `shell.onecmd`. -/
def nonInteractiveRun (p : CLIParams) (o : ShellOracle) (stdin : ReadResult) :
    Nat × List String :=
  if p.run_once ≠ "" then
    (oneShotRc o p.run_once, [p.run_once])
  else
    match stdin with
    | ReadResult.err => (1, [])
    | ReadResult.ok lines => batchLoop o 0 lines

/-- The banner string `"Welcome to zk-shell (%s)" % (__version__)`. -/
def introBanner (version : String) : String :=
  "Welcome to zk-shell (" ++ version ++ ")"

/-- What happens while the exit-confirmation answer is being read by
`raw_input` inside the `except KeyboardInterrupt` clause: either an answer
string is returned, or SIGUSR2 fires during the read and its handler raises
`StateTransition` there. -/
inductive ConfirmOutcome
  | answer (s : String)
  | signalDuringRead
  deriving DecidableEq, Repr

/-- Outcome of one `shell.run(...)` invocation, as observed by the
supervisor loop: a normal return, a `StateTransition` raised by the SIGUSR2
handler while the prompt loop runs, or a `KeyboardInterrupt` (followed by
the confirmation read). -/
inductive RunEvent
  | ret
  | stateTransition
  | interrupt (c : ConfirmOutcome)
  deriving DecidableEq, Repr

/-- State of the supervisor `while True:` loop after consuming a finite
prefix of events: still looping (with the current value of `first`), broken
out by `break` after the answer `"y"` (so `CLI.__call__` returns normally),
or aborted by a `StateTransition` raised inside the `except
KeyboardInterrupt` clause, which no enclosing handler catches and which
therefore propagates out of `CLI.__call__`. -/
inductive LoopResult
  | running (first : Bool)
  | exitedOk
  | escapedSignal
  deriving DecidableEq, Repr

/-- The supervisor loop of `CLI.__call__`:
`while True: try: shell.run(intro if first else None) except StateTransition:
pass except KeyboardInterrupt: done = raw_input(...); if done == "y": break
... first = False`.  Returns the list of banner arguments passed to
`shell.run` (one per iteration performed) and the loop's final state after
the given events. -/
def superLoop (version : String) : Bool → List RunEvent → List (Option String) × LoopResult
  | first, [] => ([], LoopResult.running first)
  | first, e :: rest =>
    match e with
    | RunEvent.ret =>
      ((if first then some (introBanner version) else none) :: (superLoop version false rest).1,
       (superLoop version false rest).2)
    | RunEvent.stateTransition =>
      ((if first then some (introBanner version) else none) :: (superLoop version false rest).1,
       (superLoop version false rest).2)
    | RunEvent.interrupt (ConfirmOutcome.answer s) =>
      if s = "y" then
        ([if first then some (introBanner version) else none], LoopResult.exitedOk)
      else
        ((if first then some (introBanner version) else none) :: (superLoop version false rest).1,
         (superLoop version false rest).2)
    | RunEvent.interrupt ConfirmOutcome.signalDuringRead =>
      ([if first then some (introBanner version) else none], LoopResult.escapedSignal)

/-- How `CLI.__call__` ends: `sys.exit(rc)` on the non-interactive path, or
the supervisor loop's final state on the interactive path. -/
inductive CallOutcome
  | exited (rc : Nat)
  | loopEnd (r : LoopResult)
  deriving DecidableEq, Repr

/-- The environment of one `CLI.__call__` run: the `Shell` collaborator's
`onecmd` behaviour, standard input, the package version, and the outcome of
each supervisor-loop iteration. -/
structure World where
  onecmd : ShellOracle
  stdin : ReadResult
  version : String
  events : List RunEvent

/-- Everything `CLI.__call__` did that the claims talk about. -/
structure CallTrace where
  registeredSigusr2 : Bool
  wrappedStdout : Bool
  invoked : List String
  banners : List (Option String)
  outcome : CallOutcome
  deriving DecidableEq, Repr

/-- The body of `CLI.__call__`.  On the non-interactive path `set_unbuffered_mode`
wraps `sys.stdout`, the dispatch runs and `sys.exit(rc)` terminates the
process before the SIGUSR2 registration line is reached.  On the interactive
path the handler is registered unless `params.sync_connect`, and the
supervisor loop runs with `first = True`. -/
def cliCall (p : CLIParams) (w : World) : CallTrace :=
  if p.interactive then
    { registeredSigusr2 := !p.sync_connect
      wrappedStdout := false
      invoked := []
      banners := (superLoop w.version true w.events).1
      outcome := CallOutcome.loopEnd (superLoop w.version true w.events).2 }
  else
    { registeredSigusr2 := false
      wrappedStdout := true
      invoked := (nonInteractiveRun p w.onecmd w.stdin).2
      banners := []
      outcome := CallOutcome.exited (nonInteractiveRun p w.onecmd w.stdin).1 }

/-- Modelled from the spec: the process entry point that invokes
`CLI()(...)` is not under `src/`; per the spec, a normal return of the
supervisor (after an affirmative exit confirmation) ends the process with
exit code 0, `sys.exit(rc)` ends it with `rc`, and an exception escaping
`CLI.__call__` is an unhandled failure (no exit code from this core). -/
def exitCode : CallOutcome → Option Nat
  | CallOutcome.exited rc => some rc
  | CallOutcome.loopEnd LoopResult.exitedOk => some 0
  | CallOutcome.loopEnd LoopResult.escapedSignal => none
  | CallOutcome.loopEnd (LoopResult.running _) => none

/-- A writable output stream with internal buffering: `write` appends to the
buffer, `flush` moves the buffer to the externally observable output.  The
`attrs` field models every attribute of the underlying Python stream object
other than `write`/`flush` behaviour, abstractly. -/
structure OutStream (α : Type) where
  buffered : List String
  flushed : List String
  attrs : String → α

/-- Python's `stream.write(data)`. -/
def OutStream.write {α : Type} (s : OutStream α) (d : String) : OutStream α :=
  { s with buffered := s.buffered ++ [d] }

/-- Python's `stream.flush()`. -/
def OutStream.flush {α : Type} (s : OutStream α) : OutStream α :=
  { s with buffered := [], flushed := s.flushed ++ s.buffered }

/-- The `write` method of the `Unbuffered` wrapper in `set_unbuffered_mode`:
`self.stream.write(data); self.stream.flush()`. -/
def unbufferedWrite {α : Type} (s : OutStream α) (d : String) : OutStream α :=
  (s.write d).flush

/-- Result of attribute lookup on an `Unbuffered` instance: the wrapper
defines `write` (on the class) and `stream` (on the instance); any other
name falls through `__getattr__` to the wrapped stream. -/
inductive WrapperAttr (α : Type)
  | ownWrite
  | ownStream
  | passthrough (v : α)
  deriving DecidableEq, Repr

/-- Python attribute lookup on an `Unbuffered` instance wrapping `s`. -/
def unbufferedGetattr {α : Type} (s : OutStream α) (name : String) : WrapperAttr α :=
  if name = "write" then WrapperAttr.ownWrite
  else if name = "stream" then WrapperAttr.ownStream
  else WrapperAttr.passthrough (s.attrs name)

/-- Iterate a write operation over a list of data chunks. -/
def writesVia {α : Type} (wr : OutStream α → String → OutStream α) :
    OutStream α → List String → OutStream α
  | s, [] => s
  | s, d :: ds => writesVia wr (wr s d) ds

/-- One observable step of the batch branch: the single up-front
`sys.stdin.readlines()` call (succeeding or raising), or one
`shell.onecmd(cmd.rstrip())` call. -/
inductive BatchAction
  | readAll (ok : Bool)
  | execCmd (cmd : String)
  deriving DecidableEq, Repr

/-- The `onecmd` calls the batch loop makes on the given lines, in order
(a call that raises `IOError` is the last one). -/
def batchExecTrace (o : ShellOracle) : Nat → List String → List BatchAction
  | _, [] => []
  | i, line :: rest =>
    match o i (pyRstrip line) with
    | CmdResult.raisesErr => [BatchAction.execCmd (pyRstrip line)]
    | _ => BatchAction.execCmd (pyRstrip line) :: batchExecTrace o (i + 1) rest

/-- The ordered action trace of the batch branch: `sys.stdin.readlines()`
runs to completion first (it returns a fully materialised list, or raises
before the `for` loop starts), then the per-command calls follow. -/
def batchTrace (o : ShellOracle) (stdin : ReadResult) : List BatchAction :=
  match stdin with
  | ReadResult.err => [BatchAction.readAll false]
  | ReadResult.ok lines => BatchAction.readAll true :: batchExecTrace o 0 lines

/-- Example configuration: interactive (no `run_once`, no `run_from_stdin`). -/
def pInterEx : CLIParams := ⟨10, "", false, false, [], false⟩

/-- Example configuration: interactive flags but `sync_connect` set. -/
def pSyncEx : CLIParams := ⟨10, "", false, true, [], false⟩

/-- Example configuration: one-shot (`run_once` non-empty, `run_from_stdin` also set). -/
def pOneEx : CLIParams := ⟨10, "ls /", true, false, [], false⟩

/-- Example configuration: batch (`run_once` empty, `run_from_stdin` set). -/
def pBatchEx : CLIParams := ⟨10, "", true, false, [], false⟩

/-- Example oracle: every `onecmd` call returns the `None` sentinel. -/
def oracleOk : ShellOracle := fun _ _ => CmdResult.retNone

/-- Example oracle: `onecmd` raises `IOError` on the command `"cmdA"`. -/
def oracleFailA : ShellOracle := fun _ c =>
  if c = "cmdA" then CmdResult.raisesErr else CmdResult.retNone

/-- Example world with the given supervisor-loop events. -/
def wOf (events : List RunEvent) : World := ⟨oracleOk, ReadResult.ok [], "v", events⟩

/-- C1: for every configuration exactly one mode is selected, by the
deterministic rule: OneShot if `run_once` is non-empty; otherwise Batch if
`run_from_stdin`; otherwise Interactive.  In particular a non-empty
`run_once` selects OneShot regardless of `run_from_stdin`. -/
theorem c1_mode_selection (p : CLIParams) :
    p.mode = specMode p ∧ (p.run_once ≠ "" → p.mode = ExecMode.oneShot) := by
  constructor
  · unfold CLIParams.mode specMode CLIParams.interactive
    by_cases h1 : p.run_once = "" <;> by_cases h2 : p.run_from_stdin <;> simp [h1, h2]
  · intro h
    unfold CLIParams.mode CLIParams.interactive
    simp [h]

theorem c1_mode_selection_witness :
    pOneEx.run_once ≠ "" ∧ pOneEx.mode = ExecMode.oneShot :=
  ⟨by decide, (c1_mode_selection pOneEx).2 (by decide)⟩

/-- C2: the SIGUSR2 handler is registered if and only if the selected mode
is Interactive and `sync_connect` is false; on the OneShot and Batch paths
`sys.exit` fires before the registration line, and with `sync_connect` the
guard skips it. -/
theorem c2_bridge_armed_iff (p : CLIParams) (w : World) :
    (cliCall p w).registeredSigusr2 = true ↔
      p.mode = ExecMode.interactive ∧ p.sync_connect = false := by
  unfold cliCall
  by_cases h : p.interactive = true
  · simp [h, mode_interactive_iff]
  · have hm : ¬ p.mode = ExecMode.interactive := fun hc => h ((mode_interactive_iff p).mp hc)
    simp [h, hm]

theorem superLoop_banner_get (version : String) :
    ∀ (events : List RunEvent) (first : Bool) (i : Nat),
      i < (superLoop version first events).1.length →
      (superLoop version first events).1[i]? =
        some (if first ∧ i = 0 then some (introBanner version) else none) := by
  intro events
  induction events with
  | nil =>
    intro first i hi
    simp [superLoop] at hi
  | cons e rest ih =>
    intro first i hi
    cases e with
    | ret =>
      cases i with
      | zero => simp [superLoop]
      | succ j =>
        simp only [superLoop, List.length_cons, Nat.succ_lt_succ_iff] at hi
        have := ih false j hi
        simp only [superLoop, List.getElem?_cons_succ]
        simpa using this
    | stateTransition =>
      cases i with
      | zero => simp [superLoop]
      | succ j =>
        simp only [superLoop, List.length_cons, Nat.succ_lt_succ_iff] at hi
        have := ih false j hi
        simp only [superLoop, List.getElem?_cons_succ]
        simpa using this
    | interrupt c =>
      cases c with
      | answer s =>
        by_cases hs : s = "y"
        · cases i with
          | zero => simp [superLoop, hs]
          | succ j => simp [superLoop, hs] at hi
        · cases i with
          | zero => simp [superLoop, hs]
          | succ j =>
            simp only [superLoop] at hi ⊢
            rw [if_neg hs] at hi ⊢
            simp only [List.length_cons, Nat.succ_lt_succ_iff] at hi
            have := ih false j hi
            simp only [List.getElem?_cons_succ]
            simpa using this
      | signalDuringRead =>
        cases i with
        | zero => simp [superLoop]
        | succ j => simp [superLoop] at hi

/-- C3: in Interactive mode the welcome banner is passed to `shell.run`
exactly on the first iteration of the supervisor loop; every later
iteration, whatever mix of reconnection restarts and declined exit
confirmations preceded it, receives `None`. -/
theorem c3_banner_exactly_once (p : CLIParams) (w : World)
    (h : p.mode = ExecMode.interactive) (i : Nat)
    (hi : i < (cliCall p w).banners.length) :
    (cliCall p w).banners[i]? =
      some (if i = 0 then some (introBanner w.version) else none) := by
  have hint : p.interactive = true := (mode_interactive_iff p).mp h
  have hb : (cliCall p w).banners = (superLoop w.version true w.events).1 := by
    simp [cliCall, hint]
  rw [hb] at hi ⊢
  have := superLoop_banner_get w.version w.events true i hi
  simpa using this

theorem c3_banner_exactly_once_witness :
    pInterEx.mode = ExecMode.interactive ∧
    1 < (cliCall pInterEx (wOf [RunEvent.ret, RunEvent.stateTransition, RunEvent.ret])).banners.length ∧
    (cliCall pInterEx (wOf [RunEvent.ret, RunEvent.stateTransition, RunEvent.ret])).banners[1]? =
      some (if 1 = 0 then some (introBanner "v") else none) :=
  ⟨by decide, by decide,
    c3_banner_exactly_once pInterEx (wOf [RunEvent.ret, RunEvent.stateTransition, RunEvent.ret])
      (by decide) 1 (by decide)⟩

theorem superLoop_exitedOk_mem (version : String) :
    ∀ (events : List RunEvent) (first : Bool),
      (superLoop version first events).2 = LoopResult.exitedOk →
      RunEvent.interrupt (ConfirmOutcome.answer "y") ∈ events := by
  intro events
  induction events with
  | nil => intro first h; simp [superLoop] at h
  | cons e rest ih =>
    intro first h
    cases e with
    | ret =>
      simp only [superLoop] at h
      exact List.mem_cons_of_mem _ (ih false h)
    | stateTransition =>
      simp only [superLoop] at h
      exact List.mem_cons_of_mem _ (ih false h)
    | interrupt c =>
      cases c with
      | answer s =>
        by_cases hs : s = "y"
        · rw [hs]; exact List.mem_cons_self _ _
        · simp only [superLoop] at h
          rw [if_neg hs] at h
          exact List.mem_cons_of_mem _ (ih false h)
      | signalDuringRead => simp [superLoop] at h

theorem superLoop_escaped_mem (version : String) :
    ∀ (events : List RunEvent) (first : Bool),
      (superLoop version first events).2 = LoopResult.escapedSignal →
      RunEvent.interrupt ConfirmOutcome.signalDuringRead ∈ events := by
  intro events
  induction events with
  | nil => intro first h; simp [superLoop] at h
  | cons e rest ih =>
    intro first h
    cases e with
    | ret =>
      simp only [superLoop] at h
      exact List.mem_cons_of_mem _ (ih false h)
    | stateTransition =>
      simp only [superLoop] at h
      exact List.mem_cons_of_mem _ (ih false h)
    | interrupt c =>
      cases c with
      | answer s =>
        by_cases hs : s = "y"
        · simp only [superLoop] at h
          rw [if_pos hs] at h
          simp at h
        · simp only [superLoop] at h
          rw [if_neg hs] at h
          exact List.mem_cons_of_mem _ (ih false h)
      | signalDuringRead => exact List.mem_cons_self _ _

/-- C4 counterexample to "the supervisor loop has no terminal condition
other than an affirmative exit confirmation": if SIGUSR2 fires while the
confirmation answer is being read, the loop terminates although no answer
`"y"` was ever given, and not with exit code 0. -/
theorem c4_counterexample :
    (cliCall pInterEx (wOf [RunEvent.interrupt ConfirmOutcome.signalDuringRead])).outcome =
      CallOutcome.loopEnd LoopResult.escapedSignal ∧
    RunEvent.interrupt (ConfirmOutcome.answer "y") ∉
      [RunEvent.interrupt ConfirmOutcome.signalDuringRead] ∧
    exitCode (cliCall pInterEx
      (wOf [RunEvent.interrupt ConfirmOutcome.signalDuringRead])).outcome ≠ some 0 := by
  decide

/-- C4 (amended): a user interrupt during the prompt loop yields a
confirmation prompt; the answer `"y"` ends the supervisor loop (and the
process exits with code 0), any other answer string resumes the loop with
the banner suppressed; the loop's only terminal conditions are an
affirmative exit confirmation and a reconnection signal raised while the
confirmation answer is being read (which ends the loop by propagating
uncaught). -/
theorem c4_confirmation_amended (version : String) (first : Bool) (s : String)
    (rest events : List RunEvent) (hs : s ≠ "y") :
    superLoop version first (RunEvent.interrupt (ConfirmOutcome.answer "y") :: rest) =
      ([if first then some (introBanner version) else none], LoopResult.exitedOk)
  ∧ superLoop version first (RunEvent.interrupt (ConfirmOutcome.answer s) :: rest) =
      ((if first then some (introBanner version) else none) :: (superLoop version false rest).1,
       (superLoop version false rest).2)
  ∧ exitCode (CallOutcome.loopEnd LoopResult.exitedOk) = some 0
  ∧ ((superLoop version first events).2 = LoopResult.exitedOk →
      RunEvent.interrupt (ConfirmOutcome.answer "y") ∈ events)
  ∧ ((superLoop version first events).2 = LoopResult.escapedSignal →
      RunEvent.interrupt ConfirmOutcome.signalDuringRead ∈ events) := by
  refine ⟨?_, ?_, rfl, superLoop_exitedOk_mem version events first,
    superLoop_escaped_mem version events first⟩
  · simp [superLoop]
  · simp only [superLoop]
    rw [if_neg hs]

theorem c4_confirmation_amended_witness :
    ("n" : String) ≠ "y" ∧
    superLoop "v" true [RunEvent.interrupt (ConfirmOutcome.answer "n")] =
      ((if true then some (introBanner "v") else none) :: (superLoop "v" false []).1,
       (superLoop "v" false []).2) :=
  ⟨by decide, (c4_confirmation_amended "v" true "n" [] [] (by decide)).2.1⟩

theorem superLoop_no_escape (version : String) :
    ∀ (events : List RunEvent) (first : Bool),
      (∀ e ∈ events, e ≠ RunEvent.interrupt ConfirmOutcome.signalDuringRead) →
      (superLoop version first events).2 ≠ LoopResult.escapedSignal := by
  intro events
  induction events with
  | nil => intro first _; simp [superLoop]
  | cons e rest ih =>
    intro first h
    have hrest : ∀ x ∈ rest, x ≠ RunEvent.interrupt ConfirmOutcome.signalDuringRead :=
      fun x hx => h x (List.mem_cons_of_mem _ hx)
    cases e with
    | ret => simpa [superLoop] using ih false hrest
    | stateTransition => simpa [superLoop] using ih false hrest
    | interrupt c =>
      cases c with
      | answer s =>
        by_cases hs : s = "y"
        · simp only [superLoop]
          rw [if_pos hs]
          simp
        · simp only [superLoop]
          rw [if_neg hs]
          exact ih false hrest
      | signalDuringRead =>
        exact absurd rfl (h _ (List.mem_cons_self _ _))

/-- C5 counterexample to "for every possible point at which it is raised
... StateTransition ... never propagates past the process entry point": in
an interactive run where one reconnection signal is caught during the
prompt loop and a second fires while the exit-confirmation answer is read,
the second escapes `CLI.__call__` uncaught (the `except` clauses of the
`try` do not cover exceptions raised inside the `except KeyboardInterrupt`
handler), so no exit code results from this core. -/
theorem c5_counterexample :
    (cliCall pInterEx (wOf [RunEvent.stateTransition,
        RunEvent.interrupt ConfirmOutcome.signalDuringRead])).outcome =
      CallOutcome.loopEnd LoopResult.escapedSignal ∧
    exitCode (cliCall pInterEx (wOf [RunEvent.stateTransition,
        RunEvent.interrupt ConfirmOutcome.signalDuringRead])).outcome = none := by
  decide

/-- C5 (amended): a reconnection signal raised while the prompt loop
(`shell.run`) is active is intercepted by the supervisor, restarts the loop
with no confirmation prompt and with the final result unchanged, and — as
long as no signal fires while the exit-confirmation answer is being read —
the loop never ends by an escaping `StateTransition`; a signal raised
during the confirmation read, however, propagates uncaught. -/
theorem c5_reconnect_amended (version : String) (first : Bool)
    (rest events : List RunEvent)
    (h : ∀ e ∈ events, e ≠ RunEvent.interrupt ConfirmOutcome.signalDuringRead) :
    superLoop version first (RunEvent.stateTransition :: rest) =
      ((if first then some (introBanner version) else none) :: (superLoop version false rest).1,
       (superLoop version false rest).2)
  ∧ (superLoop version first events).2 ≠ LoopResult.escapedSignal :=
  ⟨by simp [superLoop], superLoop_no_escape version events first h⟩

theorem c5_reconnect_amended_witness :
    (∀ e ∈ [RunEvent.stateTransition, RunEvent.interrupt (ConfirmOutcome.answer "y")],
      e ≠ RunEvent.interrupt ConfirmOutcome.signalDuringRead) ∧
    (superLoop "v" true [RunEvent.stateTransition,
      RunEvent.interrupt (ConfirmOutcome.answer "y")]).2 ≠ LoopResult.escapedSignal :=
  ⟨by decide,
    (c5_reconnect_amended "v" true []
      [RunEvent.stateTransition, RunEvent.interrupt (ConfirmOutcome.answer "y")]
      (by decide)).2⟩

theorem mode_batch_run_once (p : CLIParams) (h : p.mode = ExecMode.batch) :
    p.run_once = "" := by
  unfold CLIParams.mode at h
  by_cases h1 : p.interactive = true
  · simp [h1] at h
  · by_cases h2 : p.run_once = ""
    · exact h2
    · simp [h1, h2] at h

theorem batchLoop_rc_zero (o : ShellOracle)
    (hno : ∀ i c, o i c ≠ CmdResult.raisesErr) :
    ∀ (lines : List String) (i : Nat), (batchLoop o i lines).1 = 0 := by
  intro lines
  induction lines with
  | nil => intro i; simp [batchLoop]
  | cons line rest ih =>
    intro i
    cases hcase : o i (pyRstrip line) with
    | retNone => simp [batchLoop, hcase, ih]
    | retOther => simp [batchLoop, hcase, ih]
    | raisesErr => exact absurd hcase (hno i (pyRstrip line))

theorem batchLoop_rc_congr (o o2 : ShellOracle)
    (hagree : ∀ i c, o i c = CmdResult.raisesErr ↔ o2 i c = CmdResult.raisesErr) :
    ∀ (lines : List String) (i : Nat), (batchLoop o i lines).1 = (batchLoop o2 i lines).1 := by
  intro lines
  induction lines with
  | nil => intro i; simp [batchLoop]
  | cons line rest ih =>
    intro i
    cases h1 : o i (pyRstrip line) with
    | raisesErr =>
      have h2 : o2 i (pyRstrip line) = CmdResult.raisesErr := (hagree i (pyRstrip line)).mp h1
      simp [batchLoop, h1, h2]
    | retNone =>
      cases h2 : o2 i (pyRstrip line) with
      | raisesErr =>
        exact absurd ((hagree i (pyRstrip line)).mpr h2) (by simp [h1])
      | retNone => simp [batchLoop, h1, h2, ih]
      | retOther => simp [batchLoop, h1, h2, ih]
    | retOther =>
      cases h2 : o2 i (pyRstrip line) with
      | raisesErr =>
        exact absurd ((hagree i (pyRstrip line)).mpr h2) (by simp [h1])
      | retNone => simp [batchLoop, h1, h2, ih]
      | retOther => simp [batchLoop, h1, h2, ih]

/-- C6 counterexample to "only an I/O failure while reading input affects
the exit code; successful exhaustion of standard input exits 0 regardless":
with the same two input lines read successfully in full, an `IOError`
raised by the execution of `cmdA` makes the run exit 1 (and skips `cmdB`),
while a non-raising shell exits 0 — so an execution-time I/O failure, not
only a read-time one, affects the exit code. -/
theorem c6_counterexample :
    pBatchEx.mode = ExecMode.batch ∧
    nonInteractiveRun pBatchEx oracleFailA (ReadResult.ok ["cmdA\n", "cmdB\n"]) = (1, ["cmdA"]) ∧
    nonInteractiveRun pBatchEx oracleOk (ReadResult.ok ["cmdA\n", "cmdB\n"]) =
      (0, ["cmdA", "cmdB"]) := by
  decide

theorem batchLoop_raises_at (o : ShellOracle) :
    ∀ (lines : List String) (i k : Nat) (hk : k < lines.length),
      (∀ j (hj : j < k), o (i + j) (pyRstrip lines[j]) ≠ CmdResult.raisesErr) →
      o (i + k) (pyRstrip lines[k]) = CmdResult.raisesErr →
      batchLoop o i lines = (1, (lines.take (k + 1)).map pyRstrip) := by
  intro lines
  induction lines with
  | nil => intro i k hk; exact absurd hk (Nat.not_lt_zero k)
  | cons line rest ih =>
    intro i k hk hpre hraise
    cases k with
    | zero =>
      have h0 : o i (pyRstrip line) = CmdResult.raisesErr := by simpa using hraise
      simp [batchLoop, h0]
    | succ k2 =>
      have h0 : o i (pyRstrip line) ≠ CmdResult.raisesErr := by
        have := hpre 0 (Nat.succ_pos k2)
        simpa using this
      have hk2 : k2 < rest.length := Nat.succ_lt_succ_iff.mp (by simpa using hk)
      have hpre2 : ∀ j (hj : j < k2),
          o ((i + 1) + j) (pyRstrip rest[j]) ≠ CmdResult.raisesErr := by
        intro j hj
        have h := hpre (j + 1) (Nat.succ_lt_succ hj)
        have harith : i + (j + 1) = (i + 1) + j := by omega
        simp only [List.getElem_cons_succ] at h
        rw [harith] at h
        exact h
      have hraise2 : o ((i + 1) + k2) (pyRstrip rest[k2]) = CmdResult.raisesErr := by
        have h := hraise
        have harith : i + (k2 + 1) = (i + 1) + k2 := by omega
        simp only [List.getElem_cons_succ] at h
        rw [harith] at h
        exact h
      have hrec := ih (i + 1) k2 hk2 hpre2 hraise2
      cases hcase : o i (pyRstrip line) with
      | raisesErr => exact absurd hcase h0
      | retNone => simp [batchLoop, hcase, hrec]
      | retOther => simp [batchLoop, hcase, hrec]

/-- C6 (amended): in Batch mode per-command return values are never
inspected for exit-code purposes — two shells whose calls raise `IOError`
at exactly the same points give the same exit code; an I/O failure while
reading standard input yields exit code 1 with no command executed; an
`IOError` raised by the execution of the `k`-th command yields exit code 1
with the commands after it not executed (only the first `k + 1` stripped
lines ever reach `shell.onecmd`); and if reading succeeds and no command's
execution raises `IOError`, the run exits 0 whatever each command
returned. -/
theorem c6_exit_codes_amended (p : CLIParams) (o o2 : ShellOracle)
    (stdinLines : List String) (hb : p.mode = ExecMode.batch) :
    nonInteractiveRun p o ReadResult.err = (1, [])
  ∧ ((∀ i c, o i c ≠ CmdResult.raisesErr) →
      (nonInteractiveRun p o (ReadResult.ok stdinLines)).1 = 0)
  ∧ ((∀ i c, (o i c = CmdResult.raisesErr ↔ o2 i c = CmdResult.raisesErr)) →
      (nonInteractiveRun p o (ReadResult.ok stdinLines)).1 =
        (nonInteractiveRun p o2 (ReadResult.ok stdinLines)).1)
  ∧ (∀ k (hk : k < stdinLines.length),
      (∀ j (hj : j < k), o j (pyRstrip stdinLines[j]) ≠ CmdResult.raisesErr) →
      o k (pyRstrip stdinLines[k]) = CmdResult.raisesErr →
      nonInteractiveRun p o (ReadResult.ok stdinLines) =
        (1, (stdinLines.take (k + 1)).map pyRstrip)) := by
  have hro : p.run_once = "" := mode_batch_run_once p hb
  refine ⟨by simp [nonInteractiveRun, hro], fun hno => ?_, fun hagree => ?_,
    fun k hk hpre hraise => ?_⟩
  · simp only [nonInteractiveRun, hro]
    simpa using batchLoop_rc_zero o hno stdinLines 0
  · simp only [nonInteractiveRun, hro]
    simpa using batchLoop_rc_congr o o2 hagree stdinLines 0
  · simp only [nonInteractiveRun, hro]
    have hpre0 : ∀ j (hj : j < k), o (0 + j) (pyRstrip stdinLines[j]) ≠ CmdResult.raisesErr := by
      intro j hj
      simpa [Nat.zero_add] using hpre j hj
    have hraise0 : o (0 + k) (pyRstrip stdinLines[k]) = CmdResult.raisesErr := by
      simpa [Nat.zero_add] using hraise
    simpa using batchLoop_raises_at o stdinLines 0 k hk hpre0 hraise0

theorem c6_exit_codes_amended_witness :
    pBatchEx.mode = ExecMode.batch ∧
    (∀ i c, oracleOk i c ≠ CmdResult.raisesErr) ∧
    (nonInteractiveRun pBatchEx oracleOk (ReadResult.ok ["cmdA\n", "cmdB\n"])).1 = 0 ∧
    (0 : Nat) < (["cmdA\n", "cmdB\n"] : List String).length ∧
    nonInteractiveRun pBatchEx oracleFailA (ReadResult.ok ["cmdA\n", "cmdB\n"]) =
      (1, ((["cmdA\n", "cmdB\n"] : List String).take 1).map pyRstrip) :=
  ⟨by decide, fun _ _ => by simp [oracleOk],
    (c6_exit_codes_amended pBatchEx oracleOk oracleOk ["cmdA\n", "cmdB\n"]
      (by decide)).2.1 (fun _ _ => by simp [oracleOk]),
    by decide,
    (c6_exit_codes_amended pBatchEx oracleFailA oracleFailA ["cmdA\n", "cmdB\n"]
      (by decide)).2.2.2 0 (by decide)
      (fun j hj => absurd hj (Nat.not_lt_zero j)) (by decide)⟩

/-- C7: on the OneShot path the process exits with code 0 exactly when
`shell.onecmd(run_once)` returns the `None` sentinel, with code 1 on any
other return value and on a raised `IOError`; and from any non-interactive
mode `CLI.__call__` always ends in `sys.exit`, never returning to a
caller. -/
theorem c7_oneshot_exit (p : CLIParams) (w : World) (h : p.mode ≠ ExecMode.interactive) :
    (∃ rc, (cliCall p w).outcome = CallOutcome.exited rc)
  ∧ (p.run_once ≠ "" →
      (cliCall p w).outcome = CallOutcome.exited (oneShotRc w.onecmd p.run_once)
    ∧ (oneShotRc w.onecmd p.run_once = 0 ↔ w.onecmd 0 p.run_once = CmdResult.retNone)
    ∧ (w.onecmd 0 p.run_once ≠ CmdResult.retNone → oneShotRc w.onecmd p.run_once = 1)
    ∧ (w.onecmd 0 p.run_once = CmdResult.raisesErr → oneShotRc w.onecmd p.run_once = 1)) := by
  have hint : p.interactive ≠ true := fun hc => h ((mode_interactive_iff p).mpr hc)
  constructor
  · exact ⟨(nonInteractiveRun p w.onecmd w.stdin).1, by simp [cliCall, hint]⟩
  · intro hro
    refine ⟨by simp [cliCall, hint, nonInteractiveRun, hro], ?_, ?_, ?_⟩
    · cases hc : w.onecmd 0 p.run_once <;> simp [oneShotRc, hc]
    · intro hne
      cases hc : w.onecmd 0 p.run_once with
      | retNone => exact absurd hc hne
      | retOther => simp [oneShotRc, hc]
      | raisesErr => simp [oneShotRc, hc]
    · intro hc
      simp [oneShotRc, hc]

theorem c7_oneshot_exit_witness :
    pOneEx.mode ≠ ExecMode.interactive ∧
    pOneEx.run_once ≠ "" ∧
    (cliCall pOneEx ⟨oracleOk, ReadResult.ok [], "v", []⟩).outcome =
      CallOutcome.exited (oneShotRc oracleOk pOneEx.run_once) :=
  ⟨by decide, by decide,
    ((c7_oneshot_exit pOneEx ⟨oracleOk, ReadResult.ok [], "v", []⟩ (by decide)).2
      (by decide)).1⟩

theorem writesVia_write_state {α : Type} :
    ∀ (ds : List String) (s : OutStream α),
      (writesVia OutStream.write s ds).buffered = s.buffered ++ ds ∧
      (writesVia OutStream.write s ds).flushed = s.flushed := by
  intro ds
  induction ds with
  | nil => intro s; simp [writesVia]
  | cons d rest ih =>
    intro s
    have := ih (s.write d)
    simpa [writesVia, OutStream.write, List.append_assoc] using this

theorem writesVia_unbuffered_state {α : Type} :
    ∀ (ds : List String) (s : OutStream α), s.buffered = [] →
      (writesVia unbufferedWrite s ds).flushed = s.flushed ++ ds ∧
      (writesVia unbufferedWrite s ds).buffered = [] := by
  intro ds
  induction ds with
  | nil => intro s hbuf; simp [writesVia, hbuf]
  | cons d rest ih =>
    intro s hbuf
    have hstep : unbufferedWrite s d =
        { buffered := [], flushed := s.flushed ++ [d], attrs := s.attrs } := by
      simp [unbufferedWrite, OutStream.write, OutStream.flush, hbuf]
    have := ih (unbufferedWrite s d) (by rw [hstep])
    rw [hstep] at this
    simpa [writesVia, hstep, List.append_assoc] using this

/-- C8: the `Unbuffered` adapter's `write` is the wrapped stream's `write`
immediately followed by a flush — over any sequence of writes starting
from an empty buffer, the externally observable output equals that of the
plain stream after a final flush, and nothing stays buffered; any
attribute other than the wrapper's own `write` and `stream` passes through
to the underlying stream; and `sys.stdout` is wrapped exactly in the
non-interactive modes (OneShot and Batch), never in Interactive mode. -/
theorem c8_unbuffered_adapter {α : Type} (p : CLIParams) (w : World) (s : OutStream α)
    (d : String) (ds : List String) (nm : String)
    (hbuf : s.buffered = []) (hname : nm ≠ "write" ∧ nm ≠ "stream") :
    ((cliCall p w).wrappedStdout = true ↔ p.mode ≠ ExecMode.interactive)
  ∧ unbufferedWrite s d = OutStream.flush (OutStream.write s d)
  ∧ (writesVia unbufferedWrite s ds).flushed =
      (OutStream.flush (writesVia OutStream.write s ds)).flushed
  ∧ (writesVia unbufferedWrite s ds).buffered = []
  ∧ unbufferedGetattr s nm = WrapperAttr.passthrough (s.attrs nm) := by
  refine ⟨?_, rfl, ?_, (writesVia_unbuffered_state ds s hbuf).2, ?_⟩
  · unfold cliCall
    by_cases h : p.interactive = true
    · simp [h, mode_interactive_iff]
    · have hm : p.mode ≠ ExecMode.interactive := fun hc => h ((mode_interactive_iff p).mp hc)
      simp [h, hm]
  · rw [(writesVia_unbuffered_state ds s hbuf).1, OutStream.flush,
      (writesVia_write_state ds s).2, (writesVia_write_state ds s).1, hbuf]
    simp
  · simp [unbufferedGetattr, hname.1, hname.2]

theorem c8_unbuffered_adapter_witness :
    (⟨[], ["out"], fun _ => 0⟩ : OutStream Nat).buffered = [] ∧
    ("encoding" : String) ≠ "write" ∧ ("encoding" : String) ≠ "stream" ∧
    unbufferedGetattr (⟨[], ["out"], fun _ => 0⟩ : OutStream Nat) "encoding" =
      WrapperAttr.passthrough 0 :=
  ⟨rfl, by decide, by decide,
    (c8_unbuffered_adapter pOneEx ⟨oracleOk, ReadResult.ok [], "v", []⟩
      (⟨[], ["out"], fun _ => 0⟩ : OutStream Nat) "x" ["a", "b"] "encoding"
      rfl ⟨by decide, by decide⟩).2.2.2.2⟩

theorem dropWhile_head_not {α : Type} (q : α → Bool) :
    ∀ (l : List α) (c : α), (List.dropWhile q l).head? = some c → q c = false := by
  intro l
  induction l with
  | nil => intro c h; simp [List.dropWhile] at h
  | cons a t ih =>
    intro c h
    by_cases ha : q a = true
    · rw [List.dropWhile_cons, if_pos ha] at h
      exact ih c h
    · rw [List.dropWhile_cons, if_neg ha] at h
      simp only [List.head?_cons, Option.some_inj] at h
      rw [← h]
      exact Bool.not_eq_true _ ▸ (by simpa using ha)

theorem pyRstrip_data (s : String) :
    (pyRstrip s).data = (s.data.reverse.dropWhile isPySpace).reverse := rfl

theorem pyRstrip_splits (s : String) :
    s.data = (pyRstrip s).data ++ (s.data.reverse.takeWhile isPySpace).reverse := by
  rw [pyRstrip_data]
  conv_lhs => rw [← List.reverse_reverse s.data,
    ← List.takeWhile_append_dropWhile isPySpace s.data.reverse]
  rw [List.reverse_append]

theorem batchLoop_invoked (o : ShellOracle)
    (hno : ∀ i c, o i c ≠ CmdResult.raisesErr) :
    ∀ (lines : List String) (i : Nat), (batchLoop o i lines).2 = lines.map pyRstrip := by
  intro lines
  induction lines with
  | nil => intro i; simp [batchLoop]
  | cons line rest ih =>
    intro i
    cases hcase : o i (pyRstrip line) with
    | retNone => simp [batchLoop, hcase, ih]
    | retOther => simp [batchLoop, hcase, ih]
    | raisesErr => exact absurd hcase (hno i (pyRstrip line))

/-- C9 counterexample to "the executed command text equals the line minus
trailing newline characters, and no other characters (such as trailing
spaces or tabs) are removed": the batch loop uses `cmd.rstrip()`, which
also removes a trailing space, so for the input line `"cmdA \n"` the
executed command is `"cmdA"`, not `"cmdA "`. -/
theorem c9_counterexample :
    pyRstrip (String.mk ['c', 'm', 'd', 'A', ' ', '\n']) = "cmdA"
  ∧ stripLineTerminators (String.mk ['c', 'm', 'd', 'A', ' ', '\n']) =
      String.mk ['c', 'm', 'd', 'A', ' ']
  ∧ (nonInteractiveRun pBatchEx oracleOk
      (ReadResult.ok [String.mk ['c', 'm', 'd', 'A', ' ', '\n']])).2 = ["cmdA"]
  ∧ ("cmdA" : String) ≠ String.mk ['c', 'm', 'd', 'A', ' '] := by
  decide

/-- C9 (amended): in Batch mode each command passed to the Shell
collaborator is the corresponding input line with its maximal trailing run
of Python whitespace (spaces, tabs, CR, LF, vertical tab, form feed)
stripped — `cmd.rstrip()` — not only its trailing line terminators: the
line splits into the executed command followed by an all-whitespace
suffix, and the executed command itself never ends in whitespace. -/
theorem c9_rstrip_amended (p : CLIParams) (o : ShellOracle) (lines : List String) (s : String)
    (hb : p.mode = ExecMode.batch) (hno : ∀ i c, o i c ≠ CmdResult.raisesErr) :
    (nonInteractiveRun p o (ReadResult.ok lines)).2 = lines.map pyRstrip
  ∧ (∃ t : List Char, s.data = (pyRstrip s).data ++ t ∧ ∀ c ∈ t, isPySpace c = true)
  ∧ (∀ c, (pyRstrip s).data.getLast? = some c → isPySpace c = false) := by
  have hro : p.run_once = "" := mode_batch_run_once p hb
  refine ⟨?_, ?_, ?_⟩
  · simp only [nonInteractiveRun, hro]
    simpa using batchLoop_invoked o hno lines 0
  · refine ⟨(s.data.reverse.takeWhile isPySpace).reverse, pyRstrip_splits s, ?_⟩
    intro c hc
    exact List.mem_takeWhile_imp (List.mem_reverse.mp hc)
  · intro c hc
    rw [pyRstrip_data, List.getLast?_reverse] at hc
    exact dropWhile_head_not isPySpace s.data.reverse c hc

theorem c9_rstrip_amended_witness :
    pBatchEx.mode = ExecMode.batch ∧
    (∀ i c, oracleOk i c ≠ CmdResult.raisesErr) ∧
    (nonInteractiveRun pBatchEx oracleOk
      (ReadResult.ok [String.mk ['l', 's', ' ', '\n']])).2 =
      [String.mk ['l', 's', ' ', '\n']].map pyRstrip :=
  ⟨by decide, fun _ _ => by simp [oracleOk],
    (c9_rstrip_amended pBatchEx oracleOk [String.mk ['l', 's', ' ', '\n']] ""
      (by decide) (fun _ _ => by simp [oracleOk])).1⟩

theorem batchExecTrace_matches_batchLoop (o : ShellOracle) :
    ∀ (lines : List String) (i : Nat),
      batchExecTrace o i lines = (batchLoop o i lines).2.map BatchAction.execCmd := by
  intro lines
  induction lines with
  | nil => intro i; simp [batchExecTrace, batchLoop]
  | cons line rest ih =>
    intro i
    cases hcase : o i (pyRstrip line) with
    | retNone => simp [batchExecTrace, batchLoop, hcase, ih]
    | retOther => simp [batchExecTrace, batchLoop, hcase, ih]
    | raisesErr => simp [batchExecTrace, batchLoop, hcase]

/-- C10: in Batch mode `sys.stdin.readlines()` materialises the whole of
standard input before the `for` loop starts, so every `onecmd` call in the
action trace comes strictly after the completed read; and if reading
raises an `IOError`, the trace holds no `onecmd` call at all. -/
theorem c10_read_before_exec (o : ShellOracle) (stdin : ReadResult) (i : Nat) (c : String)
    (h : (batchTrace o stdin)[i]? = some (BatchAction.execCmd c)) :
    stdin ≠ ReadResult.err
  ∧ (batchTrace o stdin).head? = some (BatchAction.readAll true)
  ∧ 0 < i
  ∧ (∀ a ∈ batchTrace o ReadResult.err, a = BatchAction.readAll false) := by
  refine ⟨?_, ?_, ?_, by simp [batchTrace]⟩
  · intro he
    rw [he] at h
    cases i with
    | zero => simp [batchTrace] at h
    | succ j => simp [batchTrace] at h
  · cases stdin with
    | err =>
      exfalso
      cases i with
      | zero => simp [batchTrace] at h
      | succ j => simp [batchTrace] at h
    | ok lines => simp [batchTrace]
  · cases stdin with
    | err =>
      exfalso
      cases i with
      | zero => simp [batchTrace] at h
      | succ j => simp [batchTrace] at h
    | ok lines =>
      cases i with
      | zero => simp [batchTrace] at h
      | succ j => exact Nat.succ_pos j

theorem c10_read_before_exec_witness :
    (batchTrace oracleOk (ReadResult.ok ["ls\n"]))[1]? =
      some (BatchAction.execCmd "ls") ∧
    (batchTrace oracleOk (ReadResult.ok ["ls\n"])).head? =
      some (BatchAction.readAll true) ∧
    (0 : Nat) < 1 :=
  ⟨by decide,
    (c10_read_before_exec oracleOk (ReadResult.ok ["ls\n"]) 1 "ls" (by decide)).2.1,
    (c10_read_before_exec oracleOk (ReadResult.ok ["ls\n"]) 1 "ls" (by decide)).2.2.1⟩

end ZkShell
